import Mathlib

/-
Verification of the batch-lifecycle / revenue / teacher-management core of
the Bootcamp-project-OLL repository.

The embedding covers:
  * `getBatchStatus` from src/frontend/src/pages/admin/Batches.tsx
    (dates modelled as integer millisecond timestamps, matching JS Date
    comparison semantics for valid dates);
  * the per-batch revenue shares `revenue * 0.2` / `revenue * 0.3` rendered
    with `.toFixed(2)` in the same file (modelled over exact rationals with
    half-up rounding to two decimals);
  * the handlers of src/backend/routes/teachers.route.js over an explicit
    record-store state `DB` (GET list with earnings recompute, POST, PUT,
    DELETE).  Mongo ObjectIds are modelled as naturals; the handlers are
    modelled on the well-formed-id path.  JavaScript falsiness of absent
    request-body fields is modelled with `Option` (`none` = absent/falsy).
-/

/-- Half-up rounding to two decimal places, modelling the JavaScript
display/persist pattern `parseFloat(x.toFixed(2))` over exact rationals. -/
def round2 (q : ℚ) : ℚ := (Int.floor (q * 100 + 1/2) : ℚ) / 100

/-- The three derived batch states of `getBatchStatus` in Batches.tsx. -/
inductive BatchStatus where
  | upcoming
  | ongoing
  | completed
deriving Repr, DecidableEq

/-- `getBatchStatus` from Batches.tsx, lines 124-132: compares the current
time against the batch start/end instants.  Dates are integer timestamps. -/
def getBatchStatus (startDate endDate now : Int) : BatchStatus :=
  if now < startDate then .upcoming
  else if now > endDate then .completed
  else .ongoing

/-- The pair of per-batch revenue shares rendered by AdminBatches. -/
structure Allocation where
  teacherShare : ℚ
  platformShare : ℚ
deriving Repr, DecidableEq

/-- The revenue split rendered in Batches.tsx, lines 485 and 491:
`(batch.revenue * 0.2).toFixed(2)` and `(batch.revenue * 0.3).toFixed(2)`. -/
def allocate (revenue : ℚ) : Allocation :=
  { teacherShare := round2 (revenue * (2/10))
    platformShare := round2 (revenue * (3/10)) }

/-- C3 counterexample: on the degenerate input startDate = 10, endDate = 0,
now = 5 (endDate before startDate), the code returns `upcoming` although
`now > endDate`, so the claimed equivalence "completed iff now > endDate"
fails without the assumption startDate ≤ endDate. -/
theorem getBatchStatus_claim_counterexample :
    ¬ ((getBatchStatus 10 0 5 = BatchStatus.completed) ↔ ((5:Int) > (0:Int))) := by
  decide

/-- C3 (amended with the data-model invariant startDate ≤ endDate):
the status deriver returns exactly one of the three states, with
upcoming iff now < startDate, completed iff now > endDate, and ongoing
otherwise; both boundaries fall into ongoing. -/
theorem getBatchStatus_trichotomy (s e n : Int) (h : s ≤ e) :
    (getBatchStatus s e n = BatchStatus.upcoming ↔ n < s) ∧
    (getBatchStatus s e n = BatchStatus.completed ↔ e < n) ∧
    (getBatchStatus s e n = BatchStatus.ongoing ↔ (s ≤ n ∧ n ≤ e)) := by
  unfold getBatchStatus
  by_cases h1 : n < s
  · rw [if_pos h1]
    exact ⟨iff_of_true rfl h1,
           iff_of_false (by simp) (by omega),
           iff_of_false (by simp) (by omega)⟩
  · rw [if_neg h1]
    by_cases h2 : n > e
    · rw [if_pos h2]
      exact ⟨iff_of_false (by simp) h1,
             iff_of_true rfl h2,
             iff_of_false (by simp) (by omega)⟩
    · rw [if_neg h2]
      exact ⟨iff_of_false (by simp) h1,
             iff_of_false (by simp) h2,
             iff_of_true rfl (by omega)⟩

/-- Witness for C3: at startDate = 0, endDate = 10, now = 0 (a boundary),
the status is ongoing, and the full trichotomy holds. -/
theorem getBatchStatus_trichotomy_witness :
    (getBatchStatus 0 10 0 = BatchStatus.upcoming ↔ (0:Int) < 0) ∧
    (getBatchStatus 0 10 0 = BatchStatus.completed ↔ (10:Int) < 0) ∧
    (getBatchStatus 0 10 0 = BatchStatus.ongoing ↔ ((0:Int) ≤ 0 ∧ (0:Int) ≤ 10)) :=
  getBatchStatus_trichotomy 0 10 0 (by decide)

/-- C4: the revenue allocator computes teacherShare = round2(r·0.20) and
platformShare = round2(r·0.30) with half-up two-decimal rounding
(0.125 rounds up to 0.13), and allocate 100 = (20, 30), allocate 0 = (0, 0). -/
theorem allocate_shares_correct :
    (∀ r : ℚ, (allocate r).teacherShare = round2 (r * (20/100)) ∧
              (allocate r).platformShare = round2 (r * (30/100))) ∧
    round2 (125/1000) = 13/100 ∧
    allocate 100 = { teacherShare := 20, platformShare := 30 } ∧
    allocate 0 = { teacherShare := 0, platformShare := 0 } := by
  refine ⟨fun r => ⟨?_, ?_⟩, by norm_num [round2], ?_, ?_⟩
  · unfold allocate round2
    norm_num
  · unfold allocate round2
    norm_num
  · unfold allocate round2
    norm_num [Allocation.mk.injEq]
  · unfold allocate round2
    norm_num [Allocation.mk.injEq]

/-- A Teacher record (src/backend/models, as used by teachers.route.js).
Mongo ObjectIds are modelled as naturals. -/
structure Teacher where
  id : Nat
  name : String
  email : String
  phone : String
  specialization : Option String
  status : String
  totalEarnings : ℚ
  role : String
  password : String
deriving Repr, DecidableEq

/-- A Batch record; `teacher` is a nullable single reference. -/
structure Batch where
  id : Nat
  batchName : String
  teacher : Option Nat
  startDate : Int
  endDate : Int
  scheduleDays : List String
  sessionTime : String
  sessionTopic : List String
  totalStudents : Nat
  revenue : ℚ
deriving Repr, DecidableEq

/-- A Student record; `name` stands for the out-of-scope profile fields,
`teachers` is the list of Teacher references. -/
structure Student where
  id : Nat
  name : String
  teachers : List Nat
deriving Repr, DecidableEq

/-- A Sales record: a student reference, an amount and a status string. -/
structure Sale where
  id : Nat
  student : Nat
  amount : ℚ
  status : String
deriving Repr, DecidableEq

/-- The record store visible to teachers.route.js. -/
structure DB where
  teachers : List Teacher
  batches : List Batch
  students : List Student
  sales : List Sale
deriving Repr, DecidableEq

/-- `Student.find({ teachers: teacher._id }).map(s => s._id)`:
the ids of the students whose `teachers` list contains `tid`. -/
def studentIdsFor (db : DB) (tid : Nat) : List Nat :=
  (db.students.filter (fun s => s.teachers.contains tid)).map Student.id

/-- `Sales.find({ student: { $in: studentIds }, status: 'completed' })`:
the completed sales of the students of teacher `tid`. -/
def completedSalesFor (db : DB) (tid : Nat) : List Sale :=
  db.sales.filter (fun sa =>
    (studentIdsFor db tid).contains sa.student && sa.status == "completed")

/-- The body of the per-teacher recompute in GET /api/teachers:
sum of completed-sale amounts times 0.3, persisted through
`parseFloat((x).toFixed(2))`. -/
def recomputeTeacherEarnings (db : DB) (tid : Nat) : ℚ :=
  round2 (((completedSalesFor db tid).map Sale.amount).sum * (3/10))

/-- The state after the recompute loop of GET /api/teachers saved every
teacher (the success path). -/
def recomputeAll (db : DB) : DB :=
  { db with
    teachers := db.teachers.map (fun t =>
      { t with totalEarnings := recomputeTeacherEarnings db t.id }) }

/-- Spec-side predicate (from §4.3 of the spec, not the code): a sale
counts toward teacher `tid` iff its student is one of the students whose
`teachers` list contains `tid`, and its status is `completed`. -/
def isEarningSale (db : DB) (tid : Nat) (sa : Sale) : Prop :=
  (∃ s ∈ db.students, s.id = sa.student ∧ tid ∈ s.teachers) ∧
  sa.status = "completed"

instance (db : DB) (tid : Nat) (sa : Sale) : Decidable (isEarningSale db tid sa) := by
  unfold isEarningSale; infer_instance

/-- Spec-side sum S of C1: the sum of `amount` over exactly the sales
satisfying `isEarningSale`. -/
def specEarningSum (db : DB) (tid : Nat) : ℚ :=
  ((db.sales.filter (fun sa => decide (isEarningSale db tid sa))).map Sale.amount).sum

theorem mem_studentIdsFor (db : DB) (tid sid : Nat) :
    sid ∈ studentIdsFor db tid ↔ ∃ s ∈ db.students, s.id = sid ∧ tid ∈ s.teachers := by
  unfold studentIdsFor
  simp only [List.mem_map, List.mem_filter, List.elem_eq_mem, decide_eq_true_eq,
    List.contains]
  constructor
  · rintro ⟨s, ⟨hs, ht⟩, hid⟩
    exact ⟨s, hs, hid, ht⟩
  · rintro ⟨s, hs, hid, ht⟩
    exact ⟨s, ⟨hs, ht⟩, hid⟩

theorem completedSalesFor_eq_spec (db : DB) (tid : Nat) :
    completedSalesFor db tid = db.sales.filter (fun sa => decide (isEarningSale db tid sa)) := by
  unfold completedSalesFor
  apply List.filter_congr
  intro sa _
  rw [Bool.eq_iff_iff]
  simp only [Bool.and_eq_true, beq_iff_eq, decide_eq_true_eq, List.elem_eq_mem,
    List.contains, isEarningSale]
  rw [mem_studentIdsFor]

theorem recomputeTeacherEarnings_eq_spec (db : DB) (tid : Nat) :
    recomputeTeacherEarnings db tid = round2 ((3/10) * specEarningSum db tid) := by
  unfold recomputeTeacherEarnings specEarningSum
  rw [completedSalesFor_eq_spec, mul_comm]

/-- Example store for C1: one teacher (id 1) with two students (10, 11)
having completed sales of 50 and 30, and one pending sale of 1000. -/
def exampleEarningsDB : DB :=
  { teachers := [{ id := 1, name := "T", email := "t@example.com", phone := "1",
                   specialization := none, status := "active", totalEarnings := 0,
                   role := "Teacher", password := "h" }]
    batches := []
    students := [{ id := 10, name := "A", teachers := [1] },
                 { id := 11, name := "B", teachers := [1] }]
    sales := [{ id := 100, student := 10, amount := 50, status := "completed" },
              { id := 101, student := 11, amount := 30, status := "completed" },
              { id := 102, student := 10, amount := 1000, status := "pending" }] }

/-- C1: GET /api/teachers sets every teacher's totalEarnings to
round2(0.30 · S), where S sums `amount` over exactly the sales whose
student has the teacher in its `teachers` list and whose status is
`completed`; on the example store (completed sales 50 and 30, pending
sale 1000) the persisted value is 24. -/
theorem getTeachers_recompute_earnings :
    (∀ db : DB, (recomputeAll db).teachers =
      db.teachers.map (fun t =>
        { t with totalEarnings := round2 ((3/10) * specEarningSum db t.id) })) ∧
    (recomputeAll exampleEarningsDB).teachers.map Teacher.totalEarnings = [24] := by
  constructor
  · intro db
    unfold recomputeAll
    apply List.map_congr_left
    intro t _
    rw [recomputeTeacherEarnings_eq_spec]
  · have h3 : completedSalesFor exampleEarningsDB 1 =
        [{ id := 100, student := 10, amount := 50, status := "completed" },
         { id := 101, student := 11, amount := 30, status := "completed" }] := by
      simp [completedSalesFor, studentIdsFor, exampleEarningsDB]
    have h1 : (recomputeAll exampleEarningsDB).teachers.map Teacher.totalEarnings
        = [round2 (((completedSalesFor exampleEarningsDB 1).map Sale.amount).sum * (3/10))] :=
      rfl
    rw [h1, h3]
    norm_num [round2]

/-- C6: the per-teacher earnings recompute of GET /api/teachers is
idempotent: a second listing over the unchanged Students and Sales
persists exactly the same state, hence identical totalEarnings. -/
theorem recomputeAll_idempotent :
    ∀ db : DB, recomputeAll (recomputeAll db) = recomputeAll db ∧
      (recomputeAll (recomputeAll db)).teachers.map Teacher.totalEarnings
        = (recomputeAll db).teachers.map Teacher.totalEarnings := by
  intro db
  have key : recomputeAll (recomputeAll db) = recomputeAll db := by
    obtain ⟨ts, bs, ss, sls⟩ := db
    unfold recomputeAll
    simp only [List.map_map]
    congr 1
  exact ⟨key, by rw [key]⟩

/-- Response of GET /api/teachers: 200 with the teacher array, or the 500
of the route's catch block (no array in the body). -/
inductive GetTeachersResp where
  | ok (body : List Teacher)
  | storageError (msg : String)
deriving Repr, DecidableEq

/-- The recompute-and-save loop of GET /api/teachers with an explicit
storage oracle: `saveFails d = true` means `teacher.save()` throws for the
document with id `d`.  A throw aborts the remaining iterations. -/
def saveLoop (db : DB) (saveFails : Nat → Bool) : List Teacher → Except Unit (List Teacher)
  | [] => .ok []
  | t :: ts =>
    if saveFails t.id then .error ()
    else match saveLoop db saveFails ts with
      | .error e => .error e
      | .ok l => .ok ({ t with totalEarnings := recomputeTeacherEarnings db t.id } :: l)

/-- GET /api/teachers: the loop's throw, if any, is caught by the route's
try/catch and becomes the 500 response; otherwise 200 with the array. -/
def getTeachers (db : DB) (saveFails : Nat → Bool) : GetTeachersResp :=
  match saveLoop db saveFails db.teachers with
  | .error _ => .storageError "Failed to fetch teachers"
  | .ok ts => .ok ts

theorem saveLoop_error_of_fail (db : DB) (saveFails : Nat → Bool) :
    ∀ l : List Teacher, (∃ t ∈ l, saveFails t.id = true) →
      saveLoop db saveFails l = .error () := by
  intro l
  induction l with
  | nil => rintro ⟨t, ht, _⟩; cases ht
  | cons t ts ih =>
    rintro ⟨u, hu, hf⟩
    by_cases hft : saveFails t.id = true
    · simp [saveLoop, hft]
    · have hu' : u ∈ ts := by
        rcases List.mem_cons.mp hu with h1 | h1
        · exact absurd (h1 ▸ hf) hft
        · exact h1
      simp only [saveLoop, hft]
      rw [if_neg (by simp [hft]), ih ⟨u, hu', hf⟩]

/-- C8: if the save of any single teacher fails during the recompute loop,
the whole GET /api/teachers request answers with the 500 storage-failure
response and no teacher array is returned. -/
theorem getTeachers_save_failure_aborts (db : DB) (saveFails : Nat → Bool)
    (h : ∃ t ∈ db.teachers, saveFails t.id = true) :
    getTeachers db saveFails = .storageError "Failed to fetch teachers" ∧
    ∀ body, getTeachers db saveFails ≠ .ok body := by
  have hl := saveLoop_error_of_fail db saveFails db.teachers h
  constructor
  · unfold getTeachers
    rw [hl]
  · intro body hbody
    unfold getTeachers at hbody
    rw [hl] at hbody
    cases hbody

/-- Witness for C8: on the example store with a storage oracle that fails
every save, the listing answers 500 and returns no array. -/
theorem getTeachers_save_failure_aborts_witness :
    getTeachers exampleEarningsDB (fun _ => true) = .storageError "Failed to fetch teachers" ∧
    ∀ body, getTeachers exampleEarningsDB (fun _ => true) ≠ .ok body :=
  getTeachers_save_failure_aborts exampleEarningsDB (fun _ => true)
    ⟨{ id := 1, name := "T", email := "t@example.com", phone := "1",
       specialization := none, status := "active", totalEarnings := 0,
       role := "Teacher", password := "h" },
     by simp [exampleEarningsDB], rfl⟩

/-- Fidelity check tying the fallible loop to `recomputeAll`: when no save
fails, GET /api/teachers answers 200 with exactly the recomputed array. -/
theorem getTeachers_ok_of_no_failure (db : DB) (saveFails : Nat → Bool)
    (h : ∀ t ∈ db.teachers, saveFails t.id = false) :
    getTeachers db saveFails = .ok (recomputeAll db).teachers := by
  suffices hs : ∀ l : List Teacher, (∀ t ∈ l, saveFails t.id = false) →
      saveLoop db saveFails l = .ok (l.map (fun t =>
        { t with totalEarnings := recomputeTeacherEarnings db t.id })) by
    unfold getTeachers
    rw [hs db.teachers h]
    rfl
  intro l
  induction l with
  | nil => intro _; rfl
  | cons t ts ih =>
    intro hall
    have h1 : saveFails t.id = false := hall t (List.mem_cons_self t ts)
    have h2 : ∀ u ∈ ts, saveFails u.id = false := fun u hu =>
      hall u (List.mem_cons_of_mem t hu)
    simp [saveLoop, h1, ih h2]

/-- Response of DELETE /api/teachers/:id on the well-formed-id path. -/
inductive DeleteResp where
  | ok
  | notFound
deriving Repr, DecidableEq

/-- DELETE /api/teachers/:id: `Teacher.findByIdAndDelete(id)`; on a miss
the 404 returns before any mutation; on a hit the teacher is removed, then
`Batch.updateMany({teacher: id}, {$unset: {teacher: ""}})` and
`Student.updateMany({teachers: id}, {$pull: {teachers: id}})` run. -/
def deleteTeacher (db : DB) (tid : Nat) : DeleteResp × DB :=
  if db.teachers.any (fun t => t.id == tid) then
    (.ok,
     { db with
       teachers := db.teachers.filter (fun t => t.id != tid)
       batches := db.batches.map (fun b =>
         if b.teacher == some tid then { b with teacher := none } else b)
       students := db.students.map (fun s =>
         { s with teachers := s.teachers.filter (fun x => x != tid) }) })
  else (.notFound, db)

theorem teachers_any_id (db : DB) (tid : Nat) :
    db.teachers.any (fun t => t.id == tid) = true ↔ ∃ t ∈ db.teachers, t.id = tid := by
  rw [List.any_eq_true]
  simp

theorem deleteTeacher_found (db : DB) (tid : Nat)
    (h : db.teachers.any (fun t => t.id == tid) = true) :
    deleteTeacher db tid =
      (.ok,
       { db with
         teachers := db.teachers.filter (fun t => t.id != tid)
         batches := db.batches.map (fun b =>
           if b.teacher == some tid then { b with teacher := none } else b)
         students := db.students.map (fun s =>
           { s with teachers := s.teachers.filter (fun x => x != tid) }) }) := by
  unfold deleteTeacher
  rw [if_pos h]

theorem deleteTeacher_miss (db : DB) (tid : Nat)
    (h : db.teachers.any (fun t => t.id == tid) = false) :
    deleteTeacher db tid = (.notFound, db) := by
  unfold deleteTeacher
  rw [if_neg (by simp [h])]

/-- C2: after a successful DELETE /api/teachers/:id, no Batch keeps the
deleted id in `teacher` and no Student keeps it in `teachers`, while no
batch or student record is deleted (counts are preserved). -/
theorem delete_clears_references (db : DB) (tid : Nat)
    (h : ∃ t ∈ db.teachers, t.id = tid) :
    (deleteTeacher db tid).1 = .ok ∧
    (∀ b ∈ (deleteTeacher db tid).2.batches, b.teacher ≠ some tid) ∧
    (∀ s ∈ (deleteTeacher db tid).2.students, tid ∉ s.teachers) ∧
    (deleteTeacher db tid).2.batches.length = db.batches.length ∧
    (deleteTeacher db tid).2.students.length = db.students.length := by
  rw [deleteTeacher_found db tid ((teachers_any_id db tid).mpr h)]
  refine ⟨rfl, ?_, ?_, by simp, by simp⟩
  · intro b hb
    rw [List.mem_map] at hb
    obtain ⟨b0, _, hbeq⟩ := hb
    subst hbeq
    by_cases hc : b0.teacher = some tid
    · rw [if_pos (by simp [hc])]
      simp
    · rw [if_neg (by simp [hc])]
      exact hc
  · intro s hs
    rw [List.mem_map] at hs
    obtain ⟨s0, _, hseq⟩ := hs
    subst hseq
    simp [List.mem_filter]

/-- Example store for the deletion claims: teacher 1 owns batch 20 and is
referenced by students 10 and 11; batch 21 and student 11 reference only
teacher 2. -/
def exampleDeleteDB : DB :=
  { teachers := [{ id := 1, name := "T", email := "t@example.com", phone := "1",
                   specialization := none, status := "active", totalEarnings := 0,
                   role := "Teacher", password := "h" }]
    batches := [{ id := 20, batchName := "B1", teacher := some 1, startDate := 0,
                  endDate := 10, scheduleDays := ["Mon"], sessionTime := "10-11",
                  sessionTopic := ["intro"], totalStudents := 2, revenue := 100 },
                { id := 21, batchName := "B2", teacher := some 2, startDate := 5,
                  endDate := 15, scheduleDays := ["Tue"], sessionTime := "11-12",
                  sessionTopic := ["adv"], totalStudents := 1, revenue := 50 }]
    students := [{ id := 10, name := "A", teachers := [1, 2] },
                 { id := 11, name := "B", teachers := [2] }]
    sales := [] }

/-- Witness for C2: deleting teacher 1 from the example store succeeds,
clears all references to 1, and keeps both batches and both students. -/
theorem delete_clears_references_witness :
    (deleteTeacher exampleDeleteDB 1).1 = .ok ∧
    (∀ b ∈ (deleteTeacher exampleDeleteDB 1).2.batches, b.teacher ≠ some 1) ∧
    (∀ s ∈ (deleteTeacher exampleDeleteDB 1).2.students, 1 ∉ s.teachers) ∧
    (deleteTeacher exampleDeleteDB 1).2.batches.length = exampleDeleteDB.batches.length ∧
    (deleteTeacher exampleDeleteDB 1).2.students.length = exampleDeleteDB.students.length :=
  delete_clears_references exampleDeleteDB 1
    ⟨{ id := 1, name := "T", email := "t@example.com", phone := "1",
       specialization := none, status := "active", totalEarnings := 0,
       role := "Teacher", password := "h" },
     by simp [exampleDeleteDB], rfl⟩

/-- C5: DELETE /api/teachers/:id on a well-formed id matching no teacher
answers 404 and leaves the whole store untouched (no cascading cleanup
runs); consequently deleting the same id twice answers 404 the second
time. -/
theorem delete_missing_id_notFound :
    (∀ (db : DB) (tid : Nat), (∀ t ∈ db.teachers, t.id ≠ tid) →
      deleteTeacher db tid = (.notFound, db)) ∧
    (∀ (db : DB) (tid : Nat), (deleteTeacher (deleteTeacher db tid).2 tid).1 = .notFound) := by
  have hmiss : ∀ (db : DB) (tid : Nat), (∀ t ∈ db.teachers, t.id ≠ tid) →
      db.teachers.any (fun t => t.id == tid) = false := by
    intro db tid h
    rw [List.any_eq_false]
    intro t ht
    simp [h t ht]
  constructor
  · intro db tid h
    exact deleteTeacher_miss db tid (hmiss db tid h)
  · intro db tid
    by_cases hany : db.teachers.any (fun t => t.id == tid) = true
    · rw [deleteTeacher_found db tid hany]
      have h2 : ∀ t ∈ db.teachers.filter (fun t => t.id != tid), t.id ≠ tid := by
        intro t ht
        have := (List.mem_filter.mp ht).2
        simpa using this
      have h3 := hmiss
        { db with
          teachers := db.teachers.filter (fun t => t.id != tid)
          batches := db.batches.map (fun b =>
            if b.teacher == some tid then { b with teacher := none } else b)
          students := db.students.map (fun s =>
            { s with teachers := s.teachers.filter (fun x => x != tid) }) } tid h2
      rw [deleteTeacher_miss _ _ h3]
    · have hfalse : db.teachers.any (fun t => t.id == tid) = false := by
        revert hany
        cases db.teachers.any (fun t => t.id == tid) <;> simp
      rw [deleteTeacher_miss db tid hfalse]
      rw [deleteTeacher_miss db tid hfalse]

/-- Witness for C5: deleting the absent id 99 from the example store
returns 404 and leaves it unchanged. -/
theorem delete_missing_id_notFound_witness :
    deleteTeacher exampleDeleteDB 99 = (.notFound, exampleDeleteDB) :=
  delete_missing_id_notFound.1 exampleDeleteDB 99 (by
    intro t ht
    simp [exampleDeleteDB] at ht
    simp [ht])

theorem zip_map_rel {α : Type} (f : α → α) (Q : α × α → Prop)
    (hf : ∀ a, Q (a, f a)) : ∀ (l : List α), ∀ p ∈ l.zip (l.map f), Q p := by
  intro l
  induction l with
  | nil => intro p hp; cases hp
  | cons a l ih =>
    intro p hp
    simp only [List.map_cons, List.zip_cons_cons] at hp
    rcases List.mem_cons.mp hp with h1 | h1
    · subst h1; exact hf a
    · exact ih p h1

/-- C9: the cascading cleanup of a successful teacher deletion is frame
bounded: batch and student counts are preserved, each batch keeps every
field except possibly `teacher` (and is fully unchanged when its `teacher`
is not the deleted id), and each student keeps every field except
`teachers`, which merely loses the deleted id (students not referencing it
are fully unchanged). -/
theorem delete_frame_condition (db : DB) (tid : Nat)
    (h : ∃ t ∈ db.teachers, t.id = tid) :
    (deleteTeacher db tid).2.batches.length = db.batches.length ∧
    (deleteTeacher db tid).2.students.length = db.students.length ∧
    (∀ p ∈ db.batches.zip (deleteTeacher db tid).2.batches,
      p.2.id = p.1.id ∧ p.2.batchName = p.1.batchName ∧
      p.2.startDate = p.1.startDate ∧ p.2.endDate = p.1.endDate ∧
      p.2.scheduleDays = p.1.scheduleDays ∧ p.2.sessionTime = p.1.sessionTime ∧
      p.2.sessionTopic = p.1.sessionTopic ∧ p.2.totalStudents = p.1.totalStudents ∧
      p.2.revenue = p.1.revenue ∧
      (p.1.teacher ≠ some tid → p.2 = p.1)) ∧
    (∀ p ∈ db.students.zip (deleteTeacher db tid).2.students,
      p.2.id = p.1.id ∧ p.2.name = p.1.name ∧
      p.2.teachers = p.1.teachers.filter (fun x => x != tid) ∧
      (tid ∉ p.1.teachers → p.2 = p.1)) := by
  rw [deleteTeacher_found db tid ((teachers_any_id db tid).mpr h)]
  refine ⟨by simp, by simp, ?_, ?_⟩
  · dsimp only
    apply zip_map_rel
    intro b
    dsimp only
    by_cases hc : b.teacher = some tid
    · rw [if_pos (by simp [hc])]
      exact ⟨rfl, rfl, rfl, rfl, rfl, rfl, rfl, rfl, rfl, fun hne => absurd hc hne⟩
    · rw [if_neg (by simp [hc])]
      exact ⟨rfl, rfl, rfl, rfl, rfl, rfl, rfl, rfl, rfl, fun _ => rfl⟩
  · dsimp only
    apply zip_map_rel
    intro s
    dsimp only
    refine ⟨rfl, rfl, rfl, ?_⟩
    intro hno
    have hfeq : s.teachers.filter (fun x => x != tid) = s.teachers := by
      apply List.filter_eq_self.mpr
      intro x hx
      simp only [bne_iff_ne, ne_eq, decide_eq_true_eq]
      intro hxeq
      exact hno (hxeq ▸ hx)
    rw [hfeq]

/-- Witness for C9: the frame condition holds concretely for deleting
teacher 1 from the example store. -/
theorem delete_frame_condition_witness :
    (deleteTeacher exampleDeleteDB 1).2.batches.length = exampleDeleteDB.batches.length ∧
    (deleteTeacher exampleDeleteDB 1).2.students.length = exampleDeleteDB.students.length ∧
    (∀ p ∈ exampleDeleteDB.batches.zip (deleteTeacher exampleDeleteDB 1).2.batches,
      p.2.id = p.1.id ∧ p.2.batchName = p.1.batchName ∧
      p.2.startDate = p.1.startDate ∧ p.2.endDate = p.1.endDate ∧
      p.2.scheduleDays = p.1.scheduleDays ∧ p.2.sessionTime = p.1.sessionTime ∧
      p.2.sessionTopic = p.1.sessionTopic ∧ p.2.totalStudents = p.1.totalStudents ∧
      p.2.revenue = p.1.revenue ∧
      (p.1.teacher ≠ some 1 → p.2 = p.1)) ∧
    (∀ p ∈ exampleDeleteDB.students.zip (deleteTeacher exampleDeleteDB 1).2.students,
      p.2.id = p.1.id ∧ p.2.name = p.1.name ∧
      p.2.teachers = p.1.teachers.filter (fun x => x != 1) ∧
      (1 ∉ p.1.teachers → p.2 = p.1)) :=
  delete_frame_condition exampleDeleteDB 1
    ⟨{ id := 1, name := "T", email := "t@example.com", phone := "1",
       specialization := none, status := "active", totalEarnings := 0,
       role := "Teacher", password := "h" },
     by simp [exampleDeleteDB], rfl⟩

/-- Request body of POST /api/teachers.  `none` models an absent or falsy
field (the route guards required fields with `!name || !email || ...`). -/
structure PostBody where
  name : Option String
  email : Option String
  phone : Option String
  specialization : Option String
  status : Option String
  password : Option String
deriving Repr, DecidableEq

/-- Responses of POST /api/teachers: 201 with the created record, the 400
for missing required fields, or the 400 for a duplicate email. -/
inductive PostResp where
  | created (t : Teacher)
  | missingFields
  | duplicateEmail
deriving Repr, DecidableEq

/-- POST /api/teachers: requires name, email, phone, password; rejects an
email already present on some teacher; otherwise stores a new record with
hashed password, default status `active` and fixed role `Teacher`.
`newId` stands for the store-generated identifier and `hash` for the
bcrypt collaborator. -/
def postTeacher (db : DB) (body : PostBody) (newId : Nat) (hash : String → String) :
    PostResp × DB :=
  match body.name, body.email, body.phone, body.password with
  | some nm, some em, some ph, some pw =>
    if db.teachers.any (fun t => t.email == em) then (.duplicateEmail, db)
    else
      (.created
        { id := newId, name := nm, email := em, phone := ph,
          specialization := body.specialization,
          status := body.status.getD "active",
          totalEarnings := 0, role := "Teacher", password := hash pw },
       { db with teachers := db.teachers ++
          [{ id := newId, name := nm, email := em, phone := ph,
             specialization := body.specialization,
             status := body.status.getD "active",
             totalEarnings := 0, role := "Teacher", password := hash pw }] })
  | _, _, _, _ => (.missingFields, db)

/-- C7: POST /api/teachers with all required fields present and an email
already belonging to some teacher answers the duplicate-email 400 and
leaves the teacher set (indeed the whole store) unchanged. -/
theorem post_duplicate_email_conflict (db : DB) (body : PostBody) (newId : Nat)
    (hash : String → String) (nm em ph pw : String)
    (hn : body.name = some nm) (he : body.email = some em)
    (hp : body.phone = some ph) (hw : body.password = some pw)
    (hdup : ∃ t ∈ db.teachers, t.email = em) :
    postTeacher db body newId hash = (.duplicateEmail, db) := by
  have hany : db.teachers.any (fun t => t.email == em) = true := by
    rw [List.any_eq_true]
    rcases hdup with ⟨t, ht, h1⟩
    exact ⟨t, ht, by simp [h1]⟩
  unfold postTeacher
  rw [hn, he, hp, hw]
  simp only [hany, if_true]

/-- Witness for C7: posting a second teacher with the example store's
existing email is rejected without mutating the store. -/
theorem post_duplicate_email_conflict_witness :
    postTeacher exampleDeleteDB
      { name := some "U", email := some "t@example.com", phone := some "2",
        specialization := none, status := none, password := some "pw" }
      7 (fun s => s) = (.duplicateEmail, exampleDeleteDB) :=
  post_duplicate_email_conflict exampleDeleteDB
    { name := some "U", email := some "t@example.com", phone := some "2",
      specialization := none, status := none, password := some "pw" }
    7 (fun s => s) "U" "t@example.com" "2" "pw" rfl rfl rfl rfl
    ⟨{ id := 1, name := "T", email := "t@example.com", phone := "1",
       specialization := none, status := "active", totalEarnings := 0,
       role := "Teacher", password := "h" },
     by simp [exampleDeleteDB], rfl⟩

/-- Request body of PUT /api/teachers/:id; `none` models an absent or
falsy field (the route guards the email check with `if (email)`, and
Mongoose drops `undefined` values from the update document). -/
structure PutBody where
  name : Option String
  email : Option String
  phone : Option String
  specialization : Option String
  status : Option String
deriving Repr, DecidableEq

/-- Responses of PUT /api/teachers/:id on the well-formed-id path: 200
with the updated record, the duplicate-email 400, or the 404. -/
inductive PutResp where
  | ok (t : Teacher)
  | duplicateEmail
  | notFound
deriving Repr, DecidableEq

/-- The duplicate check of PUT /api/teachers/:id:
`Teacher.findOne({ email, _id: { $ne: id } })` guarded by `if (email)`. -/
def emailConflict (db : DB) (tid : Nat) (body : PutBody) : Bool :=
  match body.email with
  | some e => db.teachers.any (fun t => t.email == e && t.id != tid)
  | none => false

/-- Effect of `findByIdAndUpdate(id, {name, email, phone, specialization,
status}, {new: true})` on the matched document: only provided fields are
set. -/
def applyPut (body : PutBody) (t : Teacher) : Teacher :=
  { t with
    name := body.name.getD t.name
    email := body.email.getD t.email
    phone := body.phone.getD t.phone
    specialization := match body.specialization with
      | some sp => some sp
      | none => t.specialization
    status := body.status.getD t.status }

/-- PUT /api/teachers/:id: duplicate-email check first, then the update of
the matched teacher (404 when no teacher has the id). -/
def putTeacher (db : DB) (tid : Nat) (body : PutBody) : PutResp × DB :=
  if emailConflict db tid body then (.duplicateEmail, db)
  else
    match db.teachers.find? (fun t => t.id == tid) with
    | none => (.notFound, db)
    | some t =>
      (.ok (applyPut body t),
       { db with teachers := db.teachers.map (fun u =>
          if u.id == tid then applyPut body u else u) })

theorem putTeacher_conflict_resp_iff (db : DB) (tid : Nat) (body : PutBody) :
    (putTeacher db tid body).1 = .duplicateEmail ↔ emailConflict db tid body = true := by
  unfold putTeacher
  by_cases hc : emailConflict db tid body = true
  · rw [if_pos hc]
    simp [hc]
  · rw [if_neg hc]
    cases hfind : db.teachers.find? (fun t => t.id == tid) with
    | none => simpa using hc
    | some t => simpa using hc

theorem emailConflict_eq (db : DB) (tid : Nat) (body : PutBody) (e : String)
    (he : body.email = some e) :
    emailConflict db tid body = true ↔ ∃ t ∈ db.teachers, t.email = e ∧ t.id ≠ tid := by
  unfold emailConflict
  rw [he]
  rw [List.any_eq_true]
  simp

/-- C10: with an email submitted in the body, PUT /api/teachers/:id raises
the duplicate-email 400 iff some teacher other than :id already has that
email; in particular, when :id exists and is the only holder of the
submitted email (their own current email), the update succeeds with 200. -/
theorem put_email_conflict_iff (db : DB) (tid : Nat) (body : PutBody) (e : String)
    (he : body.email = some e) :
    ((putTeacher db tid body).1 = .duplicateEmail ↔
      ∃ t ∈ db.teachers, t.email = e ∧ t.id ≠ tid) ∧
    ((∃ t0 ∈ db.teachers, t0.id = tid) →
      (∀ t ∈ db.teachers, t.email = e → t.id = tid) →
      ∃ t', (putTeacher db tid body).1 = .ok (applyPut body t') ∧ t'.id = tid) := by
  have hiff := emailConflict_eq db tid body e he
  constructor
  · rw [putTeacher_conflict_resp_iff]
    exact hiff
  · rintro ⟨t0, ht0, hid0⟩ huniq
    have hnc : ¬ emailConflict db tid body = true := by
      intro hcb
      rcases hiff.mp hcb with ⟨t, ht, hem, hne⟩
      exact hne (huniq t ht hem)
    have hsome : (db.teachers.find? (fun t => t.id == tid)).isSome := by
      rw [List.find?_isSome]
      exact ⟨t0, ht0, by simp [hid0]⟩
    rcases Option.isSome_iff_exists.mp hsome with ⟨t', hft⟩
    refine ⟨t', ?_, ?_⟩
    · unfold putTeacher
      rw [if_neg hnc, hft]
    · have := List.find?_some hft
      simpa using this

/-- Witness for C10: updating teacher 1 of the example store while
keeping their own email `t@example.com`. -/
theorem put_email_conflict_iff_witness :
    ((putTeacher exampleDeleteDB 1
        { name := some "T2", email := some "t@example.com", phone := none,
          specialization := none, status := none }).1 = .duplicateEmail ↔
      ∃ t ∈ exampleDeleteDB.teachers, t.email = "t@example.com" ∧ t.id ≠ 1) ∧
    ((∃ t0 ∈ exampleDeleteDB.teachers, t0.id = 1) →
      (∀ t ∈ exampleDeleteDB.teachers, t.email = "t@example.com" → t.id = 1) →
      ∃ t', (putTeacher exampleDeleteDB 1
        { name := some "T2", email := some "t@example.com", phone := none,
          specialization := none, status := none }).1 = .ok (applyPut
            { name := some "T2", email := some "t@example.com", phone := none,
              specialization := none, status := none } t') ∧ t'.id = 1) :=
  put_email_conflict_iff exampleDeleteDB 1
    { name := some "T2", email := some "t@example.com", phone := none,
      specialization := none, status := none } "t@example.com" rfl
